import Mathlib

/-!
# Generic3DRenderer: scene reconciliation

A shallow embedding of `src/GUI/Renderer/Generic3DRenderer.cxx`.

Conventions of the embedding.

* C++ `double` values are idealised as rationals (`ℚ`); `unsigned int` and
  `unsigned char` values are naturals (the code performs no integer
  arithmetic on them, it only converts them to `double`).
* The renderer holds a non-owning pointer `m_Model`.  The state the pointer
  leads to is owned and mutated by the application, so every operation takes
  the model state it reads as an explicit argument (for `OnUpdate` this is
  the state right after `m_Model->Update()`).
* The toolkit objects (line sources, actors, properties, the prop assembly,
  the active camera) are represented by the values the source assigns to
  them.  `vtkRenderer::ResetCamera(bounds)` is a toolkit call; the embedding
  records the bounds it is handed as the camera's view volume.
* Dereferencing a null actor pointer is modelled by `none`.
-/

namespace ITKSnap

/-! ## Vectors -/

/-- Three doubles (`Vector3d`). -/
structure Vector3d where
  x : ℚ
  y : ℚ
  z : ℚ
deriving DecidableEq

/-- Three unsigned integers (`Vector3ui`). -/
structure Vector3ui where
  x : Nat
  y : Nat
  z : Nat
deriving DecidableEq

/-- Component read `v[i]`. -/
def Vector3d.get (v : Vector3d) : Fin 3 → ℚ
  | 0 => v.x
  | 1 => v.y
  | 2 => v.z

/-- Component write `v[i] = a`. -/
def Vector3d.set (v : Vector3d) (i : Fin 3) (a : ℚ) : Vector3d :=
  match i with
  | 0 => { v with x := a }
  | 1 => { v with y := a }
  | 2 => { v with z := a }

/-- Component read `v[i]` of an unsigned vector. -/
def Vector3ui.get (v : Vector3ui) : Fin 3 → Nat
  | 0 => v.x
  | 1 => v.y
  | 2 => v.z

/-- Conversion `to_double`. -/
def to_double (v : Vector3ui) : Vector3d :=
  ⟨(v.x : ℚ), (v.y : ℚ), (v.z : ℚ)⟩

/-- Componentwise product `element_product`. -/
def element_product (a b : Vector3d) : Vector3d :=
  ⟨a.x * b.x, a.y * b.y, a.z * b.z⟩

/-- Vector difference `a - b`. -/
def Vector3d.sub (a b : Vector3d) : Vector3d :=
  ⟨a.x - b.x, a.y - b.y, a.z - b.z⟩

/-- Vector sum `a + b`. -/
def Vector3d.add (a b : Vector3d) : Vector3d :=
  ⟨a.x + b.x, a.y + b.y, a.z + b.z⟩

/-- Scaling `a * s`. -/
def Vector3d.scale (a : Vector3d) (s : ℚ) : Vector3d :=
  ⟨a.x * s, a.y * s, a.z * s⟩

/-! ## Upstream model (read only) -/

/-- Label identifier (`LabelType`). -/
abbrev LabelType := Nat

/-- Handle of a `vtkPolyData` owned by the mesh object. -/
abbrev PolyData := Nat

/-- Appearance of one segmentation label (`ColorLabel`): three colour bytes,
an alpha byte and the 3D-visibility flag. -/
structure ColorLabel where
  red : Nat
  green : Nat
  blue : Nat
  alpha : Nat
  visibleIn3D : Bool
deriving DecidableEq

/-- Accessor `GetRGB(i)`. -/
def ColorLabel.GetRGB (cl : ColorLabel) : Fin 3 → Nat
  | 0 => cl.red
  | 1 => cl.green
  | 2 => cl.blue

/-- Accessor `GetAlpha()`. -/
def ColorLabel.GetAlpha (cl : ColorLabel) : Nat := cl.alpha

/-- Accessor `IsVisibleIn3D()`. -/
def ColorLabel.IsVisibleIn3D (cl : ColorLabel) : Bool := cl.visibleIn3D

/-- The mesh object: an indexed list of surfaces, each with the label it was
generated for. -/
structure MeshObject where
  meshes : List (PolyData × LabelType)
deriving DecidableEq

/-- Accessor `GetNumberOfVTKMeshes()`. -/
def MeshObject.GetNumberOfVTKMeshes (m : MeshObject) : Nat := m.meshes.length

/-- Accessor `GetVTKMesh(i)`. -/
def MeshObject.GetVTKMesh (m : MeshObject) (i : Nat) : PolyData :=
  (m.meshes.getD i (0, 0)).1

/-- Accessor `GetVTKMeshLabel(i)`. -/
def MeshObject.GetVTKMeshLabel (m : MeshObject) (i : Nat) : LabelType :=
  (m.meshes.getD i (0, 0)).2

/-- The application driver as far as the renderer reads it.  The voxel to
NIFTI transform of the main image wrapper is not part of the renderer's
source and is carried as a field. -/
structure IRISApplication where
  mainImageLoaded : Bool
  cursorPosition : Vector3ui
  /-- Value of `GetCurrentImageData()->GetImageRegion().GetSize()`. -/
  imageRegionSize : Vector3ui
  /-- Value of `GetCurrentImageData()->GetImageSpacing()`. -/
  imageSpacing : Vector3d
  /-- Value of `GetCurrentImageData()->GetMain()->GetSize()`. -/
  mainSize : Vector3ui
  /-- Function `GetMain()->TransformVoxelIndexToNIFTICoordinates`. -/
  voxelIndexToNIFTI : Vector3d → Vector3d
  /-- Lookup `GetColorLabelTable()->GetColorLabel`. -/
  colorLabelTable : LabelType → ColorLabel

/-- Accessor `IsMainImageLoaded()`. -/
def IRISApplication.IsMainImageLoaded (app : IRISApplication) : Bool :=
  app.mainImageLoaded

/-- Accessor `GetCursorPosition()`. -/
def IRISApplication.GetCursorPosition (app : IRISApplication) : Vector3ui :=
  app.cursorPosition

/-- One element of the appearance settings (`SNAPAppearanceSettings::Element`). -/
structure Element where
  NormalColor : Vector3d
  DashSpacing : ℚ
  LineThickness : ℚ
deriving DecidableEq

/-- The state reachable through `m_Model`. -/
structure Generic3DModel where
  mesh : MeshObject
  driver : IRISApplication
  /-- Value of `GetAppearanceSettings()->GetUIElement(CROSSHAIRS_3D)`. -/
  crosshairs3D : Element
  /-- Value of `GetWorldMatrix().data_block()`, sixteen doubles. -/
  worldMatrix : List ℚ

/-! ## Events -/

/-- Event classes the renderer registers for or emits. -/
inductive Event where
  | ModifiedEvent
  | MainImageDimensionsChangeEvent
  | CursorUpdateEvent
  | SegmentationLabelChangeEvent
  | ModelUpdateEvent
deriving DecidableEq

/-- The objects whose events the renderer rebroadcasts. -/
inductive EventSource where
  | mesh
  | driver
  | parentUI
  | colorLabelTable
deriving DecidableEq

/-- Pending events of one cycle (`m_EventBucket`). -/
abbrev EventBucket := List Event

/-- Query `HasEvent`. -/
def EventBucket.HasEvent (b : EventBucket) (e : Event) : Bool := decide (e ∈ b)

/-! ## Scene state -/

/-- One crosshair axis: the line source `m_AxisLineSource[i]` together with
the property and user transform of `m_AxisActor[i]`. -/
structure AxisLine where
  point1 : Vector3d
  point2 : Vector3d
  color : Vector3d
  lineWidth : ℚ
  lineStipplePattern : Nat
  lineStippleRepeatFactor : Int
  userTransform : Option (List ℚ)
deriving DecidableEq

/-- The `vtkProperty` of a mesh actor. -/
structure MeshProperty where
  color : Vector3d
  opacity : ℚ
deriving DecidableEq

/-- One part of `m_MeshAssembly`: a `vtkActor` with the input of its mapper,
its property and its user transform. -/
structure MeshActor where
  mapperInput : PolyData
  property : MeshProperty
  userTransform : Option (List ℚ)
deriving DecidableEq

/-- The six numbers handed to `vtkRenderer::ResetCamera`. -/
structure Bounds where
  xmin : ℚ
  xmax : ℚ
  ymin : ℚ
  ymax : ℚ
  zmin : ℚ
  zmax : ℚ
deriving DecidableEq

/-- The active camera: focal point, position, view-up vector and the bounds
the view was last fitted to. -/
structure Camera where
  focalPoint : Vector3d
  position : Vector3d
  viewUp : Vector3d
  viewVolume : Bounds
deriving DecidableEq

/-- The mutable state of the renderer. -/
structure Generic3DRenderer where
  axis : Fin 3 → AxisLine
  meshAssembly : List MeshActor
  /-- Number of explicit `m_MeshAssembly->Modified()` calls so far. -/
  meshAssemblyModified : Nat
  camera : Camera
  /-- Registrations made by `Rebroadcast`, each as `ModelUpdateEvent`. -/
  rebroadcasts : List (EventSource × Event)
  /-- Whether the picker has been given the model. -/
  pickerHasModel : Bool
  /-- Events emitted with `InvokeEvent`. -/
  invoked : List Event

/-- The constructor: three axis actors, an empty mesh assembly and a picker
without a model.  The toolkit's defaults for a fresh line and camera are
arguments. -/
def Generic3DRenderer.new (line0 : AxisLine) (cam0 : Camera) : Generic3DRenderer :=
  { axis := fun _ => line0
    meshAssembly := []
    meshAssemblyModified := 0
    camera := cam0
    rebroadcasts := []
    pickerHasModel := false
    invoked := [] }

/-! ## Operations -/

/-- Body of the loop of `UpdateAxisRendering` for axis `i`. -/
def updateAxisLine (cursor dims : Vector3ui) (axisapp : Element)
    (world : List ℚ) (i : Fin 3) (l : AxisLine) : AxisLine :=
  let p1 := (to_double cursor).set i 0
  let p2 := (to_double cursor).set i (dims.get i : ℚ)
  let l1 := { l with point1 := p1, point2 := p2 }
  let l2 := { l1 with color := ⟨1, 0, 0⟩, lineWidth := 4 }
  let l3 := { l2 with color := axisapp.NormalColor }
  let l4 :=
    if 0 < axisapp.DashSpacing then
      { l3 with lineStipplePattern := 0x9999
                lineStippleRepeatFactor := Rat.floor axisapp.DashSpacing
                lineWidth := axisapp.LineThickness }
    else l3
  { l4 with userTransform := some world }

/-- Method `Generic3DRenderer::UpdateAxisRendering`. -/
def UpdateAxisRendering (m : Generic3DModel) (r : Generic3DRenderer) : Generic3DRenderer :=
  let app := m.driver
  if app.IsMainImageLoaded then
    let cursor := app.GetCursorPosition
    let dims := app.imageRegionSize
    let axisapp := m.crosshairs3D
    (List.finRange 3).foldl
      (fun acc i =>
        { acc with axis := fun j =>
            if j = i then updateAxisLine cursor dims axisapp m.worldMatrix i (acc.axis i)
            else acc.axis j })
      r
  else r

/-- Method `Generic3DRenderer::UpdateCamera`. -/
def UpdateCamera (m : Generic3DModel) (reset : Bool) (r : Generic3DRenderer) : Generic3DRenderer :=
  let app := m.driver
  if app.IsMainImageLoaded then
    let cursor := app.GetCursorPosition
    let spacing := app.imageSpacing
    let dim := element_product (to_double app.mainSize) spacing
    let ctr := app.voxelIndexToNIFTI (to_double cursor)
    if reset then
      let x0 := ctr.sub (dim.scale (1 / 2))
      let x1 := ctr.add (dim.scale (1 / 2))
      let c1 := { r.camera with focalPoint := ⟨ctr.get 0, ctr.get 1, ctr.get 2⟩ }
      let c2 := { c1 with position := ⟨x0.get 0, ctr.get 1, ctr.get 2⟩ }
      let c3 := { c2 with viewUp := ⟨0, 0, 1⟩ }
      let c4 := { c3 with viewVolume :=
                    ⟨x0.get 0, x1.get 0, x0.get 1, x1.get 1, x0.get 2, x1.get 2⟩ }
      { r with camera := c4 }
    else
      { r with camera := { r.camera with focalPoint := ctr } }
  else r

/-- The actor built by one iteration of the loop of `UpdateRendering`. -/
def newMeshActor (m : Generic3DModel) (i : Nat) : MeshActor :=
  let cl := m.driver.colorLabelTable (m.mesh.GetVTKMeshLabel i)
  let prop : MeshProperty :=
    { color := ⟨(cl.GetRGB 0 : ℚ) / 255, (cl.GetRGB 1 : ℚ) / 255, (cl.GetRGB 2 : ℚ) / 255⟩
      opacity := (cl.GetAlpha : ℚ) / 255 }
  { mapperInput := m.mesh.GetVTKMesh i, property := prop, userTransform := none }

/-- Method `Generic3DRenderer::UpdateRendering`. -/
def UpdateRendering (m : Generic3DModel) (r : Generic3DRenderer) : Generic3DRenderer :=
  let cleared :=
    { r with meshAssembly := [], meshAssemblyModified := r.meshAssemblyModified + 1 }
  (List.range m.mesh.GetNumberOfVTKMeshes).foldl
    (fun acc i => { acc with meshAssembly := acc.meshAssembly ++ [newMeshActor m i] })
    cleared

/-- The property writes of one iteration of the loop of
`UpdateMeshAppearance`. -/
def setAppearance (cl : ColorLabel) (prop : MeshProperty) : MeshProperty :=
  let p1 := { prop with
    color := ⟨(cl.GetRGB 0 : ℚ) / 255, (cl.GetRGB 1 : ℚ) / 255, (cl.GetRGB 2 : ℚ) / 255⟩ }
  if cl.IsVisibleIn3D then { p1 with opacity := (cl.GetAlpha : ℚ) / 255 }
  else { p1 with opacity := 0 }

/-- One iteration of the loop of `UpdateMeshAppearance`.  The state is the
traversal position in the parts collection and the parts themselves;
`GetNextProp` past the end yields a null actor, whose dereference is `none`. -/
def appearanceStep (m : Generic3DModel) (st : Nat × List MeshActor) (i : Nat) :
    Option (Nat × List MeshActor) :=
  match st.2[st.1]? with
  | none => none
  | some actor =>
    let cl := m.driver.colorLabelTable (m.mesh.GetVTKMeshLabel i)
    some (st.1 + 1, st.2.set st.1 { actor with property := setAppearance cl actor.property })

/-- Method `Generic3DRenderer::UpdateMeshAppearance`. -/
def UpdateMeshAppearance (m : Generic3DModel) (r : Generic3DRenderer) :
    Option Generic3DRenderer :=
  ((List.range m.mesh.GetNumberOfVTKMeshes).foldlM (appearanceStep m) (0, r.meshAssembly)).map
    (fun st => { r with meshAssembly := st.2 })

/-- Method `Generic3DRenderer::OnUpdate`; `m` is the model state after
`m_Model->Update()`. -/
def OnUpdate (m : Generic3DModel) (bucket : EventBucket) (r : Generic3DRenderer) :
    Option Generic3DRenderer :=
  (if bucket.HasEvent Event.ModifiedEvent
        || bucket.HasEvent Event.MainImageDimensionsChangeEvent then
      some (UpdateRendering m r)
    else if bucket.HasEvent Event.SegmentationLabelChangeEvent then
      UpdateMeshAppearance m r
    else some r).map
    (fun r1 =>
      if bucket.HasEvent Event.MainImageDimensionsChangeEvent then
        UpdateCamera m true (UpdateAxisRendering m r1)
      else if bucket.HasEvent Event.CursorUpdateEvent then
        UpdateCamera m false (UpdateAxisRendering m r1)
      else r1)

/-- Method `Generic3DRenderer::SetModel`. -/
def SetModel (m : Generic3DModel) (r : Generic3DRenderer) : Generic3DRenderer :=
  let r1 := { r with rebroadcasts := r.rebroadcasts ++
    [(EventSource.mesh, Event.ModifiedEvent),
     (EventSource.driver, Event.MainImageDimensionsChangeEvent),
     (EventSource.parentUI, Event.CursorUpdateEvent),
     (EventSource.colorLabelTable, Event.SegmentationLabelChangeEvent)] }
  let r2 := UpdateAxisRendering m r1
  let r3 := UpdateCamera m true r2
  { r3 with pickerHasModel := true }

/-! ## Derived definitions used in the statements -/

/-- The actor `a` after the appearance writes for surface `k`. -/
def restyled (m : Generic3DModel) (k : Nat) (a : MeshActor) : MeshActor :=
  { a with property :=
      setAppearance (m.driver.colorLabelTable (m.mesh.GetVTKMeshLabel k)) a.property }

/-- The appearance writes applied to the first `len` actors of `rest`, the
first of them being the actor of surface `k`. -/
def updFrom (m : Generic3DModel) : Nat → Nat → List MeshActor → List MeshActor
  | _, 0, rest => rest
  | _, _ + 1, [] => []
  | k, len + 1, a :: rest => restyled m k a :: updFrom m (k + 1) len rest

/-- The axis line `i` as `UpdateAxisRendering` leaves it when an image is
loaded, `l` being the line before. -/
def rebuiltAxis (m : Generic3DModel) (i : Fin 3) (l : AxisLine) : AxisLine :=
  updateAxisLine m.driver.cursorPosition m.driver.imageRegionSize m.crosshairs3D m.worldMatrix i l

/-- World position of the cursor, `ctr` in `UpdateCamera`. -/
def cursorWorld (m : Generic3DModel) : Vector3d :=
  m.driver.voxelIndexToNIFTI (to_double m.driver.cursorPosition)

/-- Physical dimensions of the main image, `dim` in `UpdateCamera`. -/
def physicalDim (m : Generic3DModel) : Vector3d :=
  element_product (to_double m.driver.mainSize) m.driver.imageSpacing

/-- The mesh half of `OnUpdate`. -/
def meshDispatch (m : Generic3DModel) (bucket : EventBucket) (r : Generic3DRenderer) :
    Option Generic3DRenderer :=
  if bucket.HasEvent Event.ModifiedEvent
      || bucket.HasEvent Event.MainImageDimensionsChangeEvent then
    some (UpdateRendering m r)
  else if bucket.HasEvent Event.SegmentationLabelChangeEvent then
    UpdateMeshAppearance m r
  else some r

/-- The axis and camera half of `OnUpdate`. -/
def axisCameraDispatch (m : Generic3DModel) (bucket : EventBucket) (r1 : Generic3DRenderer) :
    Generic3DRenderer :=
  if bucket.HasEvent Event.MainImageDimensionsChangeEvent then
    UpdateCamera m true (UpdateAxisRendering m r1)
  else if bucket.HasEvent Event.CursorUpdateEvent then
    UpdateCamera m false (UpdateAxisRendering m r1)
  else r1

/-- Labels of the mesh surfaces whose geometry some actor of `parts` wraps, in
surface order. -/
def representedLabels (mesh : MeshObject) (parts : List MeshActor) : List LabelType :=
  (mesh.meshes.filter (fun s => parts.any (fun a => decide (a.mapperInput = s.1)))).map Prod.snd

/-- A label table: label 1 opaque red, label 2 green with alpha 128, both
visible in 3D; every other label black, transparent and hidden. -/
def sampleTable : LabelType → ColorLabel := fun l =>
  if l = 1 then ⟨255, 0, 0, 255, true⟩
  else if l = 2 then ⟨0, 255, 0, 128, true⟩
  else ⟨0, 0, 0, 0, false⟩

/-- A loaded 100x100x100 image of unit spacing, identity voxel-to-world map,
cursor on voxel (50,50,50). -/
def sampleApp : IRISApplication :=
  { mainImageLoaded := true
    cursorPosition := ⟨50, 50, 50⟩
    imageRegionSize := ⟨100, 100, 100⟩
    imageSpacing := ⟨1, 1, 1⟩
    mainSize := ⟨100, 100, 100⟩
    voxelIndexToNIFTI := fun p => p
    colorLabelTable := sampleTable }

/-- A model over the sample image with a mesh of two surfaces, of labels 1
and 2. -/
def sampleModel : Generic3DModel :=
  { mesh := ⟨[(10, 1), (20, 2)]⟩
    driver := sampleApp
    crosshairs3D := ⟨⟨0, 0, 1⟩, 0, 1⟩
    worldMatrix := [1, 0, 0, 0, 0, 1, 0, 0, 0, 0, 1, 0, 0, 0, 0, 1] }

/-- An axis line before any update. -/
def sampleLine : AxisLine :=
  { point1 := ⟨-1 / 2, 0, 0⟩
    point2 := ⟨1 / 2, 0, 0⟩
    color := ⟨1, 1, 1⟩
    lineWidth := 1
    lineStipplePattern := 0xFFFF
    lineStippleRepeatFactor := 1
    userTransform := none }

/-- A camera before any update. -/
def sampleCamera : Camera :=
  { focalPoint := ⟨0, 0, 0⟩
    position := ⟨0, 0, 1⟩
    viewUp := ⟨0, 1, 0⟩
    viewVolume := ⟨-1, 1, -1, 1, -1, 1⟩ }

/-- A freshly constructed renderer. -/
def sampleRenderer : Generic3DRenderer := Generic3DRenderer.new sampleLine sampleCamera

/-- The colour label of surface `i`, as both mesh updates look it up. -/
def labelOf (m : Generic3DModel) (i : Nat) : ColorLabel :=
  m.driver.colorLabelTable (m.mesh.GetVTKMeshLabel i)

/-- The colour `SetColor` receives for a label. -/
def labelColor (cl : ColorLabel) : Vector3d :=
  ⟨(cl.red : ℚ) / 255, (cl.green : ℚ) / 255, (cl.blue : ℚ) / 255⟩

/-- A scene with one actor per sample surface, the second one hidden. -/
def sampleScene : Generic3DRenderer :=
  { sampleRenderer with
    meshAssembly :=
      [ { mapperInput := 10, property := ⟨⟨1, 0, 0⟩, 1⟩, userTransform := none },
        { mapperInput := 20, property := ⟨⟨0, 1, 0⟩, 0⟩, userTransform := none } ] }

/-- The label table `t` with the 3D-visibility flag of label `l` switched off. -/
def hideLabel (t : LabelType → ColorLabel) (l : LabelType) : LabelType → ColorLabel :=
  fun k => if k = l then { t k with visibleIn3D := false } else t k

/-- The model `m` read with the label table `t`. -/
def withTable (m : Generic3DModel) (t : LabelType → ColorLabel) : Generic3DModel :=
  { m with driver := { m.driver with colorLabelTable := t } }

/-- The scene shows the label table: there is one actor per surface and the
i-th actor has the colour of the label of surface i and its alpha as opacity,
or opacity 0 when the label is hidden in 3D. -/
def AppearanceInSync (m : Generic3DModel) (r : Generic3DRenderer) : Prop :=
  r.meshAssembly.length = m.mesh.GetNumberOfVTKMeshes
  ∧ ∀ i, i < m.mesh.GetNumberOfVTKMeshes →
      ∃ a, r.meshAssembly[i]? = some a
        ∧ a.property.color = labelColor (labelOf m i)
        ∧ a.property.opacity =
            if (labelOf m i).visibleIn3D = true then ((labelOf m i).alpha : ℚ) / 255 else 0

/-- The point `p` lies in the box `b`. -/
def Bounds.Contains (b : Bounds) (p : Vector3d) : Prop :=
  b.xmin ≤ p.x ∧ p.x ≤ b.xmax ∧ b.ymin ≤ p.y ∧ p.y ≤ b.ymax ∧ b.zmin ≤ p.z ∧ p.z ≤ b.zmax

/-- The voxel index `v` lies inside the main image. -/
def IRISApplication.VoxelInImage (app : IRISApplication) (v : Vector3ui) : Prop :=
  v.x < app.mainSize.x ∧ v.y < app.mainSize.y ∧ v.z < app.mainSize.z

/-- The sample model with the cursor on the first voxel of the image. -/
def cornerModel : Generic3DModel :=
  { sampleModel with driver := { sampleApp with cursorPosition := ⟨0, 0, 0⟩ } }

/-- Successive `OnUpdate` passes, each with the model state and pending set
of its cycle. -/
def runCycles : List (Generic3DModel × EventBucket) → Generic3DRenderer → Option Generic3DRenderer
  | [], r => some r
  | c :: cs, r => (OnUpdate c.1 c.2 r).bind (runCycles cs)

/-- The pending set holds the cursor event and no other event the renderer
dispatches on. -/
def cursorMovedOnly (b : EventBucket) : Bool :=
  b.HasEvent Event.CursorUpdateEvent
    && !b.HasEvent Event.MainImageDimensionsChangeEvent
    && !b.HasEvent Event.ModifiedEvent
    && !b.HasEvent Event.SegmentationLabelChangeEvent

/-- The sample scene showing the sample label table. -/
def sampleSynced : Generic3DRenderer :=
  { sampleRenderer with
    meshAssembly :=
      [ { mapperInput := 10, property := ⟨⟨1, 0, 0⟩, 1⟩, userTransform := none },
        { mapperInput := 20, property := ⟨⟨0, 1, 0⟩, 128 / 255⟩, userTransform := none } ] }

/-- The assembly wraps the surfaces of `mesh` one by one: it has exactly one
actor per surface and the i-th actor wraps the geometry of surface i. -/
def MeshAligned (mesh : MeshObject) (r : Generic3DRenderer) : Prop :=
  r.meshAssembly.map (fun a => a.mapperInput) = mesh.meshes.map Prod.fst

/-- The pending set makes `OnUpdate` invoke `UpdateMeshAppearance`. -/
def selectsAppearance (b : EventBucket) : Bool :=
  !b.HasEvent Event.ModifiedEvent
    && !b.HasEvent Event.MainImageDimensionsChangeEvent
    && b.HasEvent Event.SegmentationLabelChangeEvent

/-- Every change of the surface list of the mesh object, from `prev` on and
from one cycle to the next, comes with the mesh `ModifiedEvent` in the pending
set of the cycle that first sees it. -/
def MeshChangesReported (prev : MeshObject) : List (Generic3DModel × EventBucket) → Prop
  | [] => True
  | c :: cs =>
    (c.1.mesh.meshes ≠ prev.meshes → c.2.HasEvent Event.ModifiedEvent = true)
      ∧ MeshChangesReported c.1.mesh cs

/-- The sample model before any mesh has been computed. -/
def emptyMeshModel : Generic3DModel :=
  { sampleModel with mesh := ⟨[]⟩ }

/-! ## Auxiliary lemmas -/

theorem foldl_addPart (f : Nat → MeshActor) (l : List Nat) (acc : Generic3DRenderer) :
    l.foldl (fun acc i => { acc with meshAssembly := acc.meshAssembly ++ [f i] }) acc
      = { acc with meshAssembly := acc.meshAssembly ++ l.map f } := by
  induction l generalizing acc with
  | nil => simp
  | cons a l ih => simp [ih, List.append_assoc]

theorem UpdateRendering_eq (m : Generic3DModel) (r : Generic3DRenderer) :
    UpdateRendering m r =
      { r with meshAssembly := (List.range m.mesh.GetNumberOfVTKMeshes).map (newMeshActor m)
               meshAssemblyModified := r.meshAssemblyModified + 1 } := by
  unfold UpdateRendering
  simp only [foldl_addPart, List.nil_append]

theorem appearance_loop (m : Generic3DModel) (len : Nat) :
    ∀ (k : Nat) (pre rest : List MeshActor), pre.length = k →
      (List.range' k len).foldlM (appearanceStep m) (k, pre ++ rest)
        = if len ≤ rest.length then some (k + len, pre ++ updFrom m k len rest) else none := by
  induction len with
  | zero => intro k pre rest _; simp [updFrom]
  | succ len ih =>
    intro k pre rest hk
    cases rest with
    | nil =>
      have h0 : pre[k]? = none := by subst hk; simp
      simp [List.range'_succ, appearanceStep, h0]
    | cons a rest =>
      have h1 : (pre ++ a :: rest)[k]? = some a := by
        subst hk; rw [List.getElem?_append_right (Nat.le_refl _)]; simp
      have h2 : ∀ b : MeshActor, (pre ++ a :: rest).set k b = (pre ++ [b]) ++ rest := by
        intro b; subst hk; simp
      simp only [List.range'_succ, List.foldlM_cons, appearanceStep, h1, h2]
      simp only [Option.bind_eq_bind, Option.some_bind]
      rw [ih (k + 1) _ rest (by simp [hk])]
      simp [updFrom, restyled, Nat.add_assoc, Nat.add_comm 1 len]

theorem UpdateMeshAppearance_eq (m : Generic3DModel) (r : Generic3DRenderer) :
    UpdateMeshAppearance m r =
      if m.mesh.GetNumberOfVTKMeshes ≤ r.meshAssembly.length then
        some { r with meshAssembly := updFrom m 0 m.mesh.GetNumberOfVTKMeshes r.meshAssembly }
      else none := by
  unfold UpdateMeshAppearance
  rw [List.range_eq_range']
  have := appearance_loop m m.mesh.GetNumberOfVTKMeshes 0 [] r.meshAssembly rfl
  simp only [List.nil_append] at this
  rw [this]
  split <;> simp

theorem updFrom_length (m : Generic3DModel) (len : Nat) :
    ∀ (k : Nat) (rest : List MeshActor), (updFrom m k len rest).length = rest.length := by
  induction len with
  | zero => intro k rest; simp [updFrom]
  | succ len ih =>
    intro k rest
    cases rest with
    | nil => simp [updFrom]
    | cons a rest => simp [updFrom, ih]

theorem updFrom_getElem? (m : Generic3DModel) (len : Nat) :
    ∀ (k : Nat) (rest : List MeshActor) (j : Nat),
      (updFrom m k len rest)[j]? =
        if j < len then (rest[j]?).map (restyled m (k + j)) else rest[j]? := by
  induction len with
  | zero => intro k rest j; simp [updFrom]
  | succ len ih =>
    intro k rest j
    cases rest with
    | nil => simp [updFrom]
    | cons a rest =>
      cases j with
      | zero => simp [updFrom]
      | succ j =>
        simp only [updFrom, List.getElem?_cons_succ, ih, Nat.add_lt_add_iff_right]
        have : k + 1 + j = k + (j + 1) := by omega
        rw [this]

theorem UpdateAxisRendering_eq (m : Generic3DModel) (r : Generic3DRenderer) :
    UpdateAxisRendering m r =
      if m.driver.mainImageLoaded = true then
        { r with axis := fun j => rebuiltAxis m j (r.axis j) }
      else r := by
  unfold UpdateAxisRendering
  simp only [IRISApplication.IsMainImageLoaded, IRISApplication.GetCursorPosition]
  split
  · have h3 : List.finRange 3 = [0, 1, 2] := by decide
    simp only [h3, List.foldl_cons, List.foldl_nil]
    congr 1
    funext j
    fin_cases j <;> simp [rebuiltAxis]
  · rfl

theorem UpdateAxisRendering_frame (m : Generic3DModel) (r : Generic3DRenderer) :
    UpdateAxisRendering m r = { r with axis := (UpdateAxisRendering m r).axis } := by
  rw [UpdateAxisRendering_eq]; split <;> rfl

theorem UpdateCamera_reset_eq (m : Generic3DModel) (r : Generic3DRenderer)
    (h : m.driver.mainImageLoaded = true) :
    UpdateCamera m true r =
      { r with camera :=
        { focalPoint := cursorWorld m
          position := ⟨(cursorWorld m).x - (physicalDim m).x * (1 / 2),
                       (cursorWorld m).y, (cursorWorld m).z⟩
          viewUp := ⟨0, 0, 1⟩
          viewVolume :=
            ⟨(cursorWorld m).x - (physicalDim m).x * (1 / 2),
             (cursorWorld m).x + (physicalDim m).x * (1 / 2),
             (cursorWorld m).y - (physicalDim m).y * (1 / 2),
             (cursorWorld m).y + (physicalDim m).y * (1 / 2),
             (cursorWorld m).z - (physicalDim m).z * (1 / 2),
             (cursorWorld m).z + (physicalDim m).z * (1 / 2)⟩ } } := by
  simp only [UpdateCamera, IRISApplication.IsMainImageLoaded, h, if_true]
  rfl

theorem UpdateCamera_retarget_eq (m : Generic3DModel) (r : Generic3DRenderer)
    (h : m.driver.mainImageLoaded = true) :
    UpdateCamera m false r =
      { r with camera := { r.camera with focalPoint := cursorWorld m } } := by
  simp only [UpdateCamera, IRISApplication.IsMainImageLoaded, h, if_true]
  rfl

theorem UpdateCamera_noImage (m : Generic3DModel) (reset : Bool) (r : Generic3DRenderer)
    (h : m.driver.mainImageLoaded = false) : UpdateCamera m reset r = r := by
  simp [UpdateCamera, IRISApplication.IsMainImageLoaded, h]

theorem UpdateCamera_frame (m : Generic3DModel) (reset : Bool) (r : Generic3DRenderer) :
    UpdateCamera m reset r = { r with camera := (UpdateCamera m reset r).camera } := by
  cases h : m.driver.mainImageLoaded
  · rw [UpdateCamera_noImage m reset r h]
  · cases reset
    · rw [UpdateCamera_retarget_eq m r h]
    · rw [UpdateCamera_reset_eq m r h]

theorem OnUpdate_eq (m : Generic3DModel) (b : EventBucket) (r : Generic3DRenderer) :
    OnUpdate m b r = (meshDispatch m b r).map (axisCameraDispatch m b) := rfl

theorem axisCameraDispatch_mesh (m : Generic3DModel) (b : EventBucket) (r : Generic3DRenderer) :
    (axisCameraDispatch m b r).meshAssembly = r.meshAssembly
      ∧ (axisCameraDispatch m b r).meshAssemblyModified = r.meshAssemblyModified := by
  unfold axisCameraDispatch
  split
  · rw [UpdateCamera_frame, UpdateAxisRendering_frame]; exact ⟨rfl, rfl⟩
  · split
    · rw [UpdateCamera_frame, UpdateAxisRendering_frame]; exact ⟨rfl, rfl⟩
    · exact ⟨rfl, rfl⟩

theorem newMeshActor_map_input (m : Generic3DModel) :
    ((List.range m.mesh.GetNumberOfVTKMeshes).map (newMeshActor m)).map (fun a => a.mapperInput)
      = m.mesh.meshes.map Prod.fst := by
  apply List.ext_getElem
  · simp [MeshObject.GetNumberOfVTKMeshes]
  · intro i h1 h2
    simp only [List.length_map] at h2
    simp [newMeshActor, MeshObject.GetVTKMesh, List.getD_eq_getElem?_getD, List.getElem?_eq_getElem h2]

theorem UpdateMeshAppearance_frame (m : Generic3DModel) (r r1 : Generic3DRenderer)
    (h : UpdateMeshAppearance m r = some r1) :
    r1 = { r with meshAssembly := r1.meshAssembly }
      ∧ m.mesh.GetNumberOfVTKMeshes ≤ r.meshAssembly.length
      ∧ r1.meshAssembly = updFrom m 0 m.mesh.GetNumberOfVTKMeshes r.meshAssembly := by
  rw [UpdateMeshAppearance_eq] at h
  split at h
  · rename_i hle
    injection h with h
    subst h
    exact ⟨rfl, hle, rfl⟩
  · cases h

theorem meshDispatch_frame (m : Generic3DModel) (b : EventBucket) (r r1 : Generic3DRenderer)
    (h : meshDispatch m b r = some r1) :
    r1.axis = r.axis ∧ r1.camera = r.camera ∧ r1.rebroadcasts = r.rebroadcasts
      ∧ r1.pickerHasModel = r.pickerHasModel ∧ r1.invoked = r.invoked := by
  unfold meshDispatch at h
  split at h
  · injection h with h; subst h; rw [UpdateRendering_eq]; exact ⟨rfl, rfl, rfl, rfl, rfl⟩
  · split at h
    · have := (UpdateMeshAppearance_frame m r r1 h).1
      rw [this]; exact ⟨rfl, rfl, rfl, rfl, rfl⟩
    · injection h with h; subst h; exact ⟨rfl, rfl, rfl, rfl, rfl⟩

theorem meshDispatch_eq_none (m : Generic3DModel) (b : EventBucket) (r : Generic3DRenderer) :
    meshDispatch m b r = none ↔
      (b.HasEvent Event.ModifiedEvent = false
        ∧ b.HasEvent Event.MainImageDimensionsChangeEvent = false
        ∧ b.HasEvent Event.SegmentationLabelChangeEvent = true
        ∧ r.meshAssembly.length < m.mesh.GetNumberOfVTKMeshes) := by
  unfold meshDispatch
  rw [UpdateMeshAppearance_eq]
  cases b.HasEvent Event.ModifiedEvent <;> cases b.HasEvent Event.MainImageDimensionsChangeEvent
    <;> cases b.HasEvent Event.SegmentationLabelChangeEvent <;> simp

theorem OnUpdate_eq_none (m : Generic3DModel) (b : EventBucket) (r : Generic3DRenderer) :
    OnUpdate m b r = none ↔
      (b.HasEvent Event.ModifiedEvent = false
        ∧ b.HasEvent Event.MainImageDimensionsChangeEvent = false
        ∧ b.HasEvent Event.SegmentationLabelChangeEvent = true
        ∧ r.meshAssembly.length < m.mesh.GetNumberOfVTKMeshes) := by
  rw [OnUpdate_eq, Option.map_eq_none', meshDispatch_eq_none]

theorem UpdateAxisRendering_axis_congr (m : Generic3DModel) (r r1 : Generic3DRenderer)
    (h : r1.axis = r.axis) :
    (UpdateAxisRendering m r1).axis = (UpdateAxisRendering m r).axis := by
  rw [UpdateAxisRendering_eq, UpdateAxisRendering_eq]
  split
  · simp [h]
  · exact h

theorem UpdateCamera_camera_congr (m : Generic3DModel) (reset : Bool) (r r1 : Generic3DRenderer)
    (h : r1.camera = r.camera) :
    (UpdateCamera m reset r1).camera = (UpdateCamera m reset r).camera := by
  cases hl : m.driver.mainImageLoaded
  · rw [UpdateCamera_noImage m reset r hl, UpdateCamera_noImage m reset r1 hl]; exact h
  · cases reset
    · rw [UpdateCamera_retarget_eq m r hl, UpdateCamera_retarget_eq m r1 hl]; simp [h]
    · rw [UpdateCamera_reset_eq m r hl, UpdateCamera_reset_eq m r1 hl]

theorem axisCamera_after_mesh (m : Generic3DModel) (reset : Bool) (r r1 : Generic3DRenderer)
    (ha : r1.axis = r.axis) (hc : r1.camera = r.camera) :
    (UpdateCamera m reset (UpdateAxisRendering m r1)).axis = (UpdateAxisRendering m r).axis
      ∧ (UpdateCamera m reset (UpdateAxisRendering m r1)).camera = (UpdateCamera m reset r).camera := by
  constructor
  · rw [UpdateCamera_frame]
    exact UpdateAxisRendering_axis_congr m r r1 ha
  · apply UpdateCamera_camera_congr
    rw [UpdateAxisRendering_frame]
    exact hc

theorem UpdateMeshAppearance_spec (m : Generic3DModel) (r : Generic3DRenderer)
    (h : m.mesh.GetNumberOfVTKMeshes ≤ r.meshAssembly.length) :
    ∃ r', UpdateMeshAppearance m r = some r'
      ∧ r' = { r with meshAssembly := r'.meshAssembly }
      ∧ r'.meshAssembly.length = r.meshAssembly.length
      ∧ ∀ i, r'.meshAssembly[i]? =
          if i < m.mesh.GetNumberOfVTKMeshes then (r.meshAssembly[i]?).map (restyled m i)
          else r.meshAssembly[i]? := by
  refine ⟨{ r with meshAssembly := updFrom m 0 m.mesh.GetNumberOfVTKMeshes r.meshAssembly },
    ?_, rfl, updFrom_length m _ 0 _, ?_⟩
  · rw [UpdateMeshAppearance_eq, if_pos h]
  · intro i
    have := updFrom_getElem? m m.mesh.GetNumberOfVTKMeshes 0 r.meshAssembly i
    simpa using this

theorem restyled_fields (m : Generic3DModel) (i : Nat) (a : MeshActor) :
    (restyled m i a).mapperInput = a.mapperInput
      ∧ (restyled m i a).userTransform = a.userTransform
      ∧ (restyled m i a).property.color = labelColor (labelOf m i)
      ∧ (restyled m i a).property.opacity =
          if (labelOf m i).visibleIn3D = true then ((labelOf m i).alpha : ℚ) / 255 else 0 := by
  refine ⟨rfl, rfl, ?_, ?_⟩
  · simp only [restyled, setAppearance, labelOf, labelColor, ColorLabel.IsVisibleIn3D]
    split <;> rfl
  · simp only [restyled, setAppearance, labelOf, ColorLabel.IsVisibleIn3D, ColorLabel.GetAlpha]
    split <;> rfl

theorem newMeshActor_fields (m : Generic3DModel) (i : Nat) :
    (newMeshActor m i).property.color = labelColor (labelOf m i)
      ∧ (newMeshActor m i).property.opacity = ((labelOf m i).alpha : ℚ) / 255
      ∧ (newMeshActor m i).mapperInput = m.mesh.GetVTKMesh i
      ∧ (newMeshActor m i).userTransform = none :=
  ⟨rfl, rfl, rfl, rfl⟩

theorem OnUpdate_cursorMovedOnly (m : Generic3DModel) (b : EventBucket) (r : Generic3DRenderer)
    (hb : cursorMovedOnly b = true) :
    OnUpdate m b r = some (UpdateCamera m false (UpdateAxisRendering m r)) := by
  simp only [cursorMovedOnly, Bool.and_eq_true, Bool.not_eq_true'] at hb
  obtain ⟨⟨⟨h1, h2⟩, h3⟩, h4⟩ := hb
  simp [OnUpdate, h1, h2, h3, h4]

theorem UpdateCamera_retarget_fields (m : Generic3DModel) (r : Generic3DRenderer) :
    (UpdateCamera m false r).camera.position = r.camera.position
      ∧ (UpdateCamera m false r).camera.viewUp = r.camera.viewUp
      ∧ (UpdateCamera m false r).camera.viewVolume = r.camera.viewVolume
      ∧ (m.driver.mainImageLoaded = true →
          (UpdateCamera m false r).camera.focalPoint = cursorWorld m) := by
  cases hl : m.driver.mainImageLoaded
  · rw [UpdateCamera_noImage m false r hl]; simp
  · rw [UpdateCamera_retarget_eq m r hl]; simp

theorem runCycles_cursorMovedOnly (cycles : List (Generic3DModel × EventBucket)) :
    ∀ r : Generic3DRenderer, (∀ c ∈ cycles, cursorMovedOnly c.2 = true) →
      ∃ r', runCycles cycles r = some r'
        ∧ r'.camera.position = r.camera.position
        ∧ r'.camera.viewUp = r.camera.viewUp
        ∧ r'.camera.viewVolume = r.camera.viewVolume
        ∧ r'.meshAssembly = r.meshAssembly
        ∧ (∀ c, cycles.getLast? = some c → c.1.driver.mainImageLoaded = true →
            r'.camera.focalPoint = cursorWorld c.1) := by
  induction cycles with
  | nil => intro r _; exact ⟨r, rfl, rfl, rfl, rfl, rfl, by simp⟩
  | cons c cs ih =>
    intro r hall
    have hc : cursorMovedOnly c.2 = true := hall c (List.mem_cons_self _ _)
    have hstep := OnUpdate_cursorMovedOnly c.1 c.2 r hc
    obtain ⟨r', h1, h2, h3, h4, h5, h6⟩ :=
      ih (UpdateCamera c.1 false (UpdateAxisRendering c.1 r))
        (fun d hd => hall d (List.mem_cons_of_mem _ hd))
    obtain ⟨g1, g2, g3, g4⟩ := UpdateCamera_retarget_fields c.1 (UpdateAxisRendering c.1 r)
    have hax : (UpdateAxisRendering c.1 r).camera = r.camera := by
      rw [UpdateAxisRendering_frame]
    have hmesh : (UpdateCamera c.1 false (UpdateAxisRendering c.1 r)).meshAssembly
        = r.meshAssembly := by
      rw [UpdateCamera_frame, UpdateAxisRendering_frame]
    refine ⟨r', ?_, ?_, ?_, ?_, ?_, ?_⟩
    · simp only [runCycles, hstep, Option.some_bind]; exact h1
    · rw [h2, g1, hax]
    · rw [h3, g2, hax]
    · rw [h4, g3, hax]
    · rw [h5, hmesh]
    · intro d hd hl
      cases cs with
      | nil =>
        simp only [List.getLast?_singleton, Option.some.injEq] at hd
        subst hd
        simp only [runCycles, hstep, Option.some_bind, Option.some.injEq] at h1
        rw [← h1]
        exact g4 hl
      | cons e es =>
        rw [List.getLast?_cons_cons] at hd
        exact h6 d hd hl

theorem sampleSynced_inSync : AppearanceInSync sampleModel sampleSynced := by
  refine ⟨rfl, ?_⟩
  intro i hi
  have hi2 : i < 2 := hi
  interval_cases i
  · refine ⟨_, rfl, ?_, ?_⟩ <;>
      norm_num [sampleSynced, labelColor, labelOf, sampleModel, sampleApp, sampleTable,
        MeshObject.GetVTKMeshLabel]
  · refine ⟨_, rfl, ?_, ?_⟩ <;>
      norm_num [sampleSynced, labelColor, labelOf, sampleModel, sampleApp, sampleTable,
        MeshObject.GetVTKMeshLabel]

theorem SetModel_eq (m : Generic3DModel) (r : Generic3DRenderer) :
    SetModel m r =
      { r with
        rebroadcasts := r.rebroadcasts ++
          [(EventSource.mesh, Event.ModifiedEvent),
           (EventSource.driver, Event.MainImageDimensionsChangeEvent),
           (EventSource.parentUI, Event.CursorUpdateEvent),
           (EventSource.colorLabelTable, Event.SegmentationLabelChangeEvent)]
        axis := (UpdateAxisRendering m r).axis
        camera := (UpdateCamera m true r).camera
        pickerHasModel := true } := by
  simp only [SetModel]
  rw [UpdateCamera_frame, UpdateAxisRendering_frame]
  have h1 := UpdateAxisRendering_axis_congr m r
    { r with rebroadcasts := r.rebroadcasts ++
        [(EventSource.mesh, Event.ModifiedEvent),
         (EventSource.driver, Event.MainImageDimensionsChangeEvent),
         (EventSource.parentUI, Event.CursorUpdateEvent),
         (EventSource.colorLabelTable, Event.SegmentationLabelChangeEvent)] } rfl
  simp only [h1]
  congr 1
  apply UpdateCamera_camera_congr
  rfl

theorem SetModel_meshAssembly (m : Generic3DModel) (r : Generic3DRenderer) :
    (SetModel m r).meshAssembly = r.meshAssembly
      ∧ (SetModel m r).meshAssemblyModified = r.meshAssemblyModified := by
  rw [SetModel_eq]; exact ⟨rfl, rfl⟩

theorem MeshAligned_length (mesh : MeshObject) (r : Generic3DRenderer)
    (h : MeshAligned mesh r) : r.meshAssembly.length = mesh.GetNumberOfVTKMeshes := by
  have := congrArg List.length h
  simpa [MeshObject.GetNumberOfVTKMeshes] using this

theorem UpdateRendering_aligned (m : Generic3DModel) (r : Generic3DRenderer) :
    MeshAligned m.mesh (UpdateRendering m r) := by
  unfold MeshAligned
  rw [UpdateRendering_eq]
  exact newMeshActor_map_input m

theorem UpdateMeshAppearance_inputs (m : Generic3DModel) (r : Generic3DRenderer)
    (h : m.mesh.GetNumberOfVTKMeshes ≤ r.meshAssembly.length) :
    ∃ r', UpdateMeshAppearance m r = some r'
      ∧ r'.meshAssembly.map (fun a => a.mapperInput)
          = r.meshAssembly.map (fun a => a.mapperInput) := by
  obtain ⟨r', h1, -, -, h4⟩ := UpdateMeshAppearance_spec m r h
  refine ⟨r', h1, ?_⟩
  apply List.ext_getElem?
  intro i
  simp only [List.getElem?_map, h4 i]
  split
  · cases r.meshAssembly[i]? <;> simp [restyled]
  · rfl

theorem OnUpdate_aligned (prev : MeshObject) (m : Generic3DModel) (b : EventBucket)
    (r : Generic3DRenderer) (h : MeshAligned prev r)
    (hrep : m.mesh.meshes ≠ prev.meshes → b.HasEvent Event.ModifiedEvent = true) :
    (selectsAppearance b = true → MeshAligned m.mesh r)
      ∧ ∃ r', OnUpdate m b r = some r' ∧ MeshAligned m.mesh r' := by
  have hkeep : ∀ x : Generic3DRenderer, MeshAligned m.mesh x →
      MeshAligned m.mesh (axisCameraDispatch m b x) := by
    intro x hx
    unfold MeshAligned
    rw [(axisCameraDispatch_mesh m b x).1]
    exact hx
  have hsame : b.HasEvent Event.ModifiedEvent = false → MeshAligned m.mesh r := by
    intro hmod
    have : m.mesh.meshes = prev.meshes := by
      by_contra hne
      rw [hrep hne] at hmod
      cases hmod
    unfold MeshAligned
    rw [this]
    exact h
  constructor
  · intro hsel
    simp only [selectsAppearance, Bool.and_eq_true, Bool.not_eq_true'] at hsel
    exact hsame hsel.1.1
  · rw [OnUpdate_eq]
    unfold meshDispatch
    cases hmod : b.HasEvent Event.ModifiedEvent
    · cases hdim : b.HasEvent Event.MainImageDimensionsChangeEvent
      · cases hseg : b.HasEvent Event.SegmentationLabelChangeEvent
        · exact ⟨axisCameraDispatch m b r, by simp, hkeep r (hsame hmod)⟩
        · have hal := hsame hmod
          obtain ⟨r', h1, h2⟩ := UpdateMeshAppearance_inputs m r
            (le_of_eq (MeshAligned_length m.mesh r hal).symm)
          refine ⟨axisCameraDispatch m b r', by simp [h1], hkeep r' ?_⟩
          unfold MeshAligned
          rw [h2]
          exact hal
      · exact ⟨axisCameraDispatch m b (UpdateRendering m r), by simp,
          hkeep _ (UpdateRendering_aligned m r)⟩
    · exact ⟨axisCameraDispatch m b (UpdateRendering m r), by simp,
        hkeep _ (UpdateRendering_aligned m r)⟩

theorem runCycles_aligned (pre rest : List (Generic3DModel × EventBucket)) :
    ∀ (prev : MeshObject) (r : Generic3DRenderer), MeshAligned prev r →
      MeshChangesReported prev (pre ++ rest) →
      ∃ r1 prev1, runCycles pre r = some r1 ∧ MeshAligned prev1 r1
        ∧ MeshChangesReported prev1 rest := by
  induction pre with
  | nil => intro prev r h hrep; exact ⟨r, prev, rfl, h, hrep⟩
  | cons c cs ih =>
    intro prev r h hrep
    simp only [List.cons_append, MeshChangesReported] at hrep
    obtain ⟨-, r', h1, h2⟩ := OnUpdate_aligned prev c.1 c.2 r h hrep.1
    obtain ⟨r1, prev1, g1, g2, g3⟩ := ih c.1.mesh r' h2 hrep.2
    exact ⟨r1, prev1, by simp only [runCycles, h1, Option.some_bind]; exact g1, g2, g3⟩

theorem updateAxisLine_points (cursor dims : Vector3ui) (axisapp : Element) (world : List ℚ)
    (i : Fin 3) (l : AxisLine) :
    (updateAxisLine cursor dims axisapp world i l).point1 = (to_double cursor).set i 0
      ∧ (updateAxisLine cursor dims axisapp world i l).point2
          = (to_double cursor).set i (dims.get i : ℚ) := by
  unfold updateAxisLine
  dsimp only
  split <;> exact ⟨rfl, rfl⟩

/-! ## The claims -/

/-- C1: for every pending change set, if it holds the mesh `ModifiedEvent` or
`MainImageDimensionsChangeEvent`, `OnUpdate` returns and its mesh assembly is
the one `UpdateRendering` builds (whether or not a label event is pending
too); otherwise, if it holds `SegmentationLabelChangeEvent`, the mesh assembly
is exactly what `UpdateMeshAppearance` yields; otherwise (so for the empty
set) `OnUpdate` returns and the mesh assembly is unchanged. -/
theorem OnUpdate_mesh_dispatch (m : Generic3DModel) (b : EventBucket) (r : Generic3DRenderer) :
    ((b.HasEvent Event.ModifiedEvent = true
        ∨ b.HasEvent Event.MainImageDimensionsChangeEvent = true) →
      ∃ r', OnUpdate m b r = some r'
        ∧ r'.meshAssembly = (UpdateRendering m r).meshAssembly
        ∧ r'.meshAssemblyModified = (UpdateRendering m r).meshAssemblyModified)
    ∧ (b.HasEvent Event.ModifiedEvent = false →
        b.HasEvent Event.MainImageDimensionsChangeEvent = false →
        b.HasEvent Event.SegmentationLabelChangeEvent = true →
        (OnUpdate m b r).map (fun x => (x.meshAssembly, x.meshAssemblyModified))
          = (UpdateMeshAppearance m r).map (fun x => (x.meshAssembly, x.meshAssemblyModified)))
    ∧ (b.HasEvent Event.ModifiedEvent = false →
        b.HasEvent Event.MainImageDimensionsChangeEvent = false →
        b.HasEvent Event.SegmentationLabelChangeEvent = false →
        ∃ r', OnUpdate m b r = some r'
          ∧ r'.meshAssembly = r.meshAssembly
          ∧ r'.meshAssemblyModified = r.meshAssemblyModified)
    ∧ OnUpdate m [] r = some r := by
  refine ⟨?_, ?_, ?_, rfl⟩
  · intro h
    have hb : (b.HasEvent Event.ModifiedEvent
        || b.HasEvent Event.MainImageDimensionsChangeEvent) = true := by
      rcases h with h | h <;> simp [h]
    refine ⟨axisCameraDispatch m b (UpdateRendering m r), ?_, ?_⟩
    · simp [OnUpdate_eq, meshDispatch, hb]
    · exact axisCameraDispatch_mesh m b _
  · intro h1 h2 h3
    simp only [OnUpdate_eq, meshDispatch, h1, h2, h3, Bool.or_self, Bool.false_eq_true,
      if_false, if_true, Option.map_map]
    congr 1
    funext x
    simp [Function.comp, axisCameraDispatch_mesh m b x]
  · intro h1 h2 h3
    refine ⟨axisCameraDispatch m b r, ?_, axisCameraDispatch_mesh m b r⟩
    simp [OnUpdate_eq, meshDispatch, h1, h2, h3]

theorem OnUpdate_mesh_dispatch_witness :
    ∃ r', OnUpdate sampleModel
          [Event.SegmentationLabelChangeEvent, Event.ModifiedEvent] sampleRenderer = some r'
        ∧ r'.meshAssembly = (UpdateRendering sampleModel sampleRenderer).meshAssembly
        ∧ r'.meshAssemblyModified
            = (UpdateRendering sampleModel sampleRenderer).meshAssemblyModified :=
  (OnUpdate_mesh_dispatch sampleModel
    [Event.SegmentationLabelChangeEvent, Event.ModifiedEvent] sampleRenderer).1 (Or.inl rfl)

/-- C3: for every mesh object and every previous content of the assembly,
after `UpdateRendering` the assembly has exactly one actor per surface, in
surface order, the i-th actor being the fresh actor of surface i and wrapping
its geometry; the labels it represents are exactly the labels of the mesh, every
actor wraps a current surface, and the result does not depend on what the
assembly held before.  The assembly is marked modified also for an empty mesh. -/
theorem UpdateRendering_structural (m : Generic3DModel) (r : Generic3DRenderer) :
    (UpdateRendering m r).meshAssembly.length = m.mesh.GetNumberOfVTKMeshes
    ∧ (∀ i, i < m.mesh.GetNumberOfVTKMeshes →
        (UpdateRendering m r).meshAssembly[i]? = some (newMeshActor m i)
        ∧ ((UpdateRendering m r).meshAssembly[i]?).map (fun a => a.mapperInput)
            = (m.mesh.meshes[i]?).map Prod.fst)
    ∧ (UpdateRendering m r).meshAssembly.map (fun a => a.mapperInput)
        = m.mesh.meshes.map Prod.fst
    ∧ representedLabels m.mesh (UpdateRendering m r).meshAssembly = m.mesh.meshes.map Prod.snd
    ∧ (∀ a ∈ (UpdateRendering m r).meshAssembly, ∃ s ∈ m.mesh.meshes, a.mapperInput = s.1)
    ∧ (∀ r2 : Generic3DRenderer,
        (UpdateRendering m r2).meshAssembly = (UpdateRendering m r).meshAssembly)
    ∧ (UpdateRendering m r).meshAssemblyModified = r.meshAssemblyModified + 1 := by
  have hmap := newMeshActor_map_input m
  have hasm : (UpdateRendering m r).meshAssembly
      = (List.range m.mesh.GetNumberOfVTKMeshes).map (newMeshActor m) := by
    rw [UpdateRendering_eq]
  have hin : ∀ a ∈ (UpdateRendering m r).meshAssembly,
      ∃ s ∈ m.mesh.meshes, a.mapperInput = s.1 := by
    intro a ha
    have : a.mapperInput ∈ (UpdateRendering m r).meshAssembly.map (fun a => a.mapperInput) :=
      List.mem_map_of_mem _ ha
    rw [hasm, hmap] at this
    obtain ⟨s, hs, hs2⟩ := List.mem_map.1 this
    exact ⟨s, hs, hs2.symm⟩
  refine ⟨by simp [hasm], ?_, by rw [hasm, hmap], ?_, hin, ?_, by rw [UpdateRendering_eq]⟩
  · intro i hi
    have h1 : (UpdateRendering m r).meshAssembly[i]? = some (newMeshActor m i) := by
      rw [hasm]; simp [hi]
    refine ⟨h1, ?_⟩
    have hi2 : i < m.mesh.meshes.length := hi
    rw [h1]
    simp [newMeshActor, MeshObject.GetVTKMesh, List.getD_eq_getElem?_getD,
      List.getElem?_eq_getElem hi2]
  · unfold representedLabels
    congr 1
    rw [List.filter_eq_self]
    intro s hs
    have : s.1 ∈ (UpdateRendering m r).meshAssembly.map (fun a => a.mapperInput) := by
      rw [hasm, hmap]; exact List.mem_map_of_mem _ hs
    obtain ⟨a, ha, ha2⟩ := List.mem_map.1 this
    simp only [List.any_eq_true, decide_eq_true_eq]
    exact ⟨a, ha, ha2⟩
  · intro r2
    rw [hasm, UpdateRendering_eq]

theorem UpdateRendering_structural_witness :
    (UpdateRendering sampleModel sampleScene).meshAssembly.length = 2
    ∧ (UpdateRendering sampleModel sampleScene).meshAssembly.map (fun a => a.mapperInput)
        = [10, 20]
    ∧ representedLabels sampleModel.mesh (UpdateRendering sampleModel sampleScene).meshAssembly
        = [1, 2] :=
  ⟨(UpdateRendering_structural sampleModel sampleScene).1,
   (UpdateRendering_structural sampleModel sampleScene).2.2.1,
   (UpdateRendering_structural sampleModel sampleScene).2.2.2.1⟩

/-- C4: when the assembly has one actor per surface, `UpdateMeshAppearance`
returns, keeps the number of actors, and leaves the i-th actor with colour
(R/255, G/255, B/255) of the label of surface i and with opacity alpha/255 if
that label is visible in 3D and 0 if it is not, whatever its alpha. -/
theorem UpdateMeshAppearance_values (m : Generic3DModel) (r : Generic3DRenderer)
    (h : r.meshAssembly.length = m.mesh.GetNumberOfVTKMeshes) :
    ∃ r', UpdateMeshAppearance m r = some r'
      ∧ r'.meshAssembly.length = m.mesh.GetNumberOfVTKMeshes
      ∧ ∀ i, i < m.mesh.GetNumberOfVTKMeshes →
          ∃ a, r'.meshAssembly[i]? = some a
            ∧ a.property.color
                = ⟨((labelOf m i).red : ℚ) / 255, ((labelOf m i).green : ℚ) / 255,
                   ((labelOf m i).blue : ℚ) / 255⟩
            ∧ ((labelOf m i).visibleIn3D = true →
                a.property.opacity = ((labelOf m i).alpha : ℚ) / 255)
            ∧ ((labelOf m i).visibleIn3D = false → a.property.opacity = 0) := by
  obtain ⟨r', h1, -, h3, h4⟩ := UpdateMeshAppearance_spec m r (le_of_eq h.symm)
  refine ⟨r', h1, h3.trans h, ?_⟩
  intro i hi
  have hi2 : i < r.meshAssembly.length := h ▸ hi
  obtain ⟨-, -, hc, ho⟩ := restyled_fields m i r.meshAssembly[i]
  refine ⟨restyled m i r.meshAssembly[i], ?_, hc, ?_, ?_⟩
  · rw [h4 i, if_pos hi, List.getElem?_eq_getElem hi2]; rfl
  · intro hv; rw [ho, if_pos hv]
  · intro hv; rw [ho, if_neg (by simp [hv])]

theorem UpdateMeshAppearance_values_witness :
    sampleScene.meshAssembly.length = sampleModel.mesh.GetNumberOfVTKMeshes
    ∧ ∃ r', UpdateMeshAppearance sampleModel sampleScene = some r'
        ∧ (∃ a, r'.meshAssembly[1]? = some a ∧ a.property.opacity = 128 / 255
            ∧ a.property.color = ⟨0, 1, 0⟩)
        ∧ (∃ a, r'.meshAssembly[0]? = some a ∧ a.property.opacity = 1
            ∧ a.property.color = ⟨1, 0, 0⟩) := by
  refine ⟨rfl, ?_⟩
  obtain ⟨r', h1, -, h3⟩ := UpdateMeshAppearance_values sampleModel sampleScene rfl
  refine ⟨r', h1, ?_, ?_⟩
  · obtain ⟨a, ha, hc, hv, -⟩ := h3 1 (by decide)
    refine ⟨a, ha, ?_, ?_⟩
    · rw [hv rfl]; norm_num [labelOf, sampleModel, sampleApp, sampleTable,
        MeshObject.GetVTKMeshLabel]
    · rw [hc]; norm_num [labelOf, sampleModel, sampleApp, sampleTable,
        MeshObject.GetVTKMeshLabel]
  · obtain ⟨a, ha, hc, hv, -⟩ := h3 0 (by decide)
    refine ⟨a, ha, ?_, ?_⟩
    · rw [hv rfl]; norm_num [labelOf, sampleModel, sampleApp, sampleTable,
        MeshObject.GetVTKMeshLabel]
    · rw [hc]; norm_num [labelOf, sampleModel, sampleApp, sampleTable,
        MeshObject.GetVTKMeshLabel]

/-- C5: after `UpdateRendering` every actor has colour RGB/255 and opacity
alpha/255 of its surface label, whatever the label's 3D-visibility flag; and
`UpdateMeshAppearance` run right afterwards returns, never changes a colour,
and changes the opacity of the i-th actor exactly when the label of surface i
is hidden in 3D and has non-zero alpha. -/
theorem rebuild_then_appearance (m : Generic3DModel) (r : Generic3DRenderer) :
    (∀ i, i < m.mesh.GetNumberOfVTKMeshes →
      ∃ a, (UpdateRendering m r).meshAssembly[i]? = some a
        ∧ a.property.color
            = ⟨((labelOf m i).red : ℚ) / 255, ((labelOf m i).green : ℚ) / 255,
               ((labelOf m i).blue : ℚ) / 255⟩
        ∧ a.property.opacity = ((labelOf m i).alpha : ℚ) / 255)
    ∧ ∃ r', UpdateMeshAppearance m (UpdateRendering m r) = some r'
        ∧ r'.meshAssembly.length = m.mesh.GetNumberOfVTKMeshes
        ∧ ∀ i, i < m.mesh.GetNumberOfVTKMeshes →
            ∃ a a', (UpdateRendering m r).meshAssembly[i]? = some a
              ∧ r'.meshAssembly[i]? = some a'
              ∧ a'.property.color = a.property.color
              ∧ (a'.property.opacity ≠ a.property.opacity ↔
                  ((labelOf m i).visibleIn3D = false ∧ (labelOf m i).alpha ≠ 0)) := by
  have hasm : (UpdateRendering m r).meshAssembly
      = (List.range m.mesh.GetNumberOfVTKMeshes).map (newMeshActor m) := by
    rw [UpdateRendering_eq]
  have hlen : (UpdateRendering m r).meshAssembly.length = m.mesh.GetNumberOfVTKMeshes := by
    simp [hasm]
  have hget : ∀ i, i < m.mesh.GetNumberOfVTKMeshes →
      (UpdateRendering m r).meshAssembly[i]? = some (newMeshActor m i) := by
    intro i hi; rw [hasm]; simp [hi]
  constructor
  · intro i hi
    exact ⟨newMeshActor m i, hget i hi, rfl, rfl⟩
  · obtain ⟨r', h1, -, h3, h4⟩ :=
      UpdateMeshAppearance_spec m (UpdateRendering m r) (le_of_eq hlen.symm)
    refine ⟨r', h1, h3.trans hlen, ?_⟩
    intro i hi
    obtain ⟨-, -, hc, ho⟩ := restyled_fields m i (newMeshActor m i)
    refine ⟨newMeshActor m i, restyled m i (newMeshActor m i), hget i hi, ?_, ?_, ?_⟩
    · rw [h4 i, if_pos hi, hget i hi]; rfl
    · rw [hc]; rfl
    · rw [ho, (newMeshActor_fields m i).2.1]
      have hz : ((labelOf m i).alpha : ℚ) / 255 = 0 ↔ (labelOf m i).alpha = 0 := by
        rw [div_eq_zero_iff]; simp
      cases hv : (labelOf m i).visibleIn3D
      · simp only [Bool.false_eq_true, if_false, ne_eq, true_and]
        rw [eq_comm, hz]
      · simp

theorem rebuild_then_appearance_witness :
    ∃ a, (UpdateRendering sampleModel sampleRenderer).meshAssembly[1]? = some a
      ∧ a.property.color
          = ⟨((labelOf sampleModel 1).red : ℚ) / 255, ((labelOf sampleModel 1).green : ℚ) / 255,
             ((labelOf sampleModel 1).blue : ℚ) / 255⟩
      ∧ a.property.opacity = ((labelOf sampleModel 1).alpha : ℚ) / 255 :=
  (rebuild_then_appearance sampleModel sampleRenderer).1 1 (by decide)

/-- C6: when the assembly has one actor per surface, `UpdateMeshAppearance`
returns and changes nothing but the property (colour and opacity) of the mesh
actors: the number and order of actors, each actor's geometry and transform,
the axis lines, the camera and all other renderer state are unchanged; an
`OnUpdate` cycle whose pending set holds only the label event does exactly
this.  If moreover the scene showed the label table and one label is then
hidden in 3D, the update leaves every colour unchanged and changes only the
opacity of the actors of that label, which becomes 0. -/
theorem UpdateMeshAppearance_isolation (m : Generic3DModel) (r : Generic3DRenderer)
    (h : r.meshAssembly.length = m.mesh.GetNumberOfVTKMeshes) :
    (∃ r', UpdateMeshAppearance m r = some r'
      ∧ r' = { r with meshAssembly := r'.meshAssembly }
      ∧ r'.axis = r.axis ∧ r'.camera = r.camera
      ∧ r'.meshAssemblyModified = r.meshAssemblyModified
      ∧ r'.meshAssembly.length = r.meshAssembly.length
      ∧ r'.meshAssembly.map (fun a => a.mapperInput)
          = r.meshAssembly.map (fun a => a.mapperInput)
      ∧ r'.meshAssembly.map (fun a => a.userTransform)
          = r.meshAssembly.map (fun a => a.userTransform))
    ∧ (∀ b : EventBucket, b.HasEvent Event.ModifiedEvent = false →
        b.HasEvent Event.MainImageDimensionsChangeEvent = false →
        b.HasEvent Event.CursorUpdateEvent = false →
        b.HasEvent Event.SegmentationLabelChangeEvent = true →
        OnUpdate m b r = UpdateMeshAppearance m r)
    ∧ (∀ l : LabelType, AppearanceInSync m r →
        ∃ r', UpdateMeshAppearance (withTable m (hideLabel m.driver.colorLabelTable l)) r
            = some r'
          ∧ r' = { r with meshAssembly := r'.meshAssembly }
          ∧ r'.meshAssembly.length = r.meshAssembly.length
          ∧ ∀ i, i < m.mesh.GetNumberOfVTKMeshes →
              ∃ a a', r.meshAssembly[i]? = some a ∧ r'.meshAssembly[i]? = some a'
                ∧ a'.mapperInput = a.mapperInput
                ∧ a'.userTransform = a.userTransform
                ∧ a'.property.color = a.property.color
                ∧ a'.property.opacity =
                    if m.mesh.GetVTKMeshLabel i = l then 0 else a.property.opacity) := by
  refine ⟨?_, ?_, ?_⟩
  · obtain ⟨r', h1, h2, h3, h4⟩ := UpdateMeshAppearance_spec m r (le_of_eq h.symm)
    refine ⟨r', h1, h2, by rw [h2], by rw [h2], by rw [h2], h3, ?_, ?_⟩
    · apply List.ext_getElem?
      intro i
      simp only [List.getElem?_map, h4 i]
      split
      · cases r.meshAssembly[i]? <;> simp [restyled]
      · rfl
    · apply List.ext_getElem?
      intro i
      simp only [List.getElem?_map, h4 i]
      split
      · cases r.meshAssembly[i]? <;> simp [restyled]
      · rfl
  · intro b h1 h2 h3 h4
    rw [OnUpdate_eq]
    simp only [meshDispatch, h1, h2, h4, Bool.or_self, Bool.false_eq_true, if_false, if_true]
    have : axisCameraDispatch m b = id := by
      funext x; simp [axisCameraDispatch, h2, h3]
    rw [this, Option.map_id, id]
  · intro l hsync
    obtain ⟨r', h1, h2, h3, h4⟩ :=
      UpdateMeshAppearance_spec (withTable m (hideLabel m.driver.colorLabelTable l)) r
        (le_of_eq h.symm)
    refine ⟨r', h1, h2, h3, ?_⟩
    intro i hi
    obtain ⟨a, ha, hc, ho⟩ := hsync.2 i hi
    obtain ⟨hf1, hf2, hf3, hf4⟩ :=
      restyled_fields (withTable m (hideLabel m.driver.colorLabelTable l)) i a
    refine ⟨a, restyled (withTable m (hideLabel m.driver.colorLabelTable l)) i a, ha, ?_,
      hf1, hf2, ?_, ?_⟩
    · have hi2 : i < (withTable m (hideLabel m.driver.colorLabelTable l)).mesh.GetNumberOfVTKMeshes :=
        hi
      have := h4 i
      rw [if_pos hi2, ha] at this
      exact this
    · rw [hf3, hc]
      simp only [labelOf, withTable, hideLabel, labelColor]
      split <;> rfl
    · rw [hf4, ho]
      simp only [labelOf, withTable, hideLabel]
      by_cases hl : m.mesh.GetVTKMeshLabel i = l
      · simp [hl]
      · simp [hl]

theorem UpdateMeshAppearance_isolation_witness :
    sampleSynced.meshAssembly.length = sampleModel.mesh.GetNumberOfVTKMeshes
    ∧ AppearanceInSync sampleModel sampleSynced
    ∧ ∃ r', UpdateMeshAppearance
          (withTable sampleModel (hideLabel sampleModel.driver.colorLabelTable 2)) sampleSynced
            = some r'
        ∧ r' = { sampleSynced with meshAssembly := r'.meshAssembly }
        ∧ r'.meshAssembly.length = sampleSynced.meshAssembly.length
        ∧ ∀ i, i < sampleModel.mesh.GetNumberOfVTKMeshes →
            ∃ a a', sampleSynced.meshAssembly[i]? = some a ∧ r'.meshAssembly[i]? = some a'
              ∧ a'.mapperInput = a.mapperInput
              ∧ a'.userTransform = a.userTransform
              ∧ a'.property.color = a.property.color
              ∧ a'.property.opacity =
                  if sampleModel.mesh.GetVTKMeshLabel i = 2 then 0 else a.property.opacity :=
  ⟨rfl, sampleSynced_inSync,
    (UpdateMeshAppearance_isolation sampleModel sampleSynced rfl).2.2 2 sampleSynced_inSync⟩

/-- C7: with an image loaded, of size s and spacing sp, and the cursor at
world position ctr, `UpdateCamera(true)` sets the focal point to ctr, the
view-up vector to (0,0,1), and fits the view to the box from
ctr_k - s_k*sp_k/2 to ctr_k + s_k*sp_k/2 on each axis k; nothing but the camera
changes. -/
theorem UpdateCamera_reset (m : Generic3DModel) (r : Generic3DRenderer)
    (himg : m.driver.mainImageLoaded = true) :
    (UpdateCamera m true r).camera.focalPoint
        = m.driver.voxelIndexToNIFTI (to_double m.driver.cursorPosition)
    ∧ (UpdateCamera m true r).camera.viewUp = ⟨0, 0, 1⟩
    ∧ (UpdateCamera m true r).camera.viewVolume =
        ⟨(cursorWorld m).x - (m.driver.mainSize.x : ℚ) * m.driver.imageSpacing.x / 2,
         (cursorWorld m).x + (m.driver.mainSize.x : ℚ) * m.driver.imageSpacing.x / 2,
         (cursorWorld m).y - (m.driver.mainSize.y : ℚ) * m.driver.imageSpacing.y / 2,
         (cursorWorld m).y + (m.driver.mainSize.y : ℚ) * m.driver.imageSpacing.y / 2,
         (cursorWorld m).z - (m.driver.mainSize.z : ℚ) * m.driver.imageSpacing.z / 2,
         (cursorWorld m).z + (m.driver.mainSize.z : ℚ) * m.driver.imageSpacing.z / 2⟩
    ∧ UpdateCamera m true r = { r with camera := (UpdateCamera m true r).camera } := by
  refine ⟨?_, ?_, ?_, UpdateCamera_frame m true r⟩
  · rw [UpdateCamera_reset_eq m r himg]; rfl
  · rw [UpdateCamera_reset_eq m r himg]
  · rw [UpdateCamera_reset_eq m r himg]
    simp only [physicalDim, element_product, to_double, Bounds.mk.injEq]
    refine ⟨?_, ?_, ?_, ?_, ?_, ?_⟩ <;> ring

theorem UpdateCamera_reset_witness :
    sampleModel.driver.mainImageLoaded = true
    ∧ (UpdateCamera sampleModel true sampleRenderer).camera.focalPoint = ⟨50, 50, 50⟩
    ∧ (UpdateCamera sampleModel true sampleRenderer).camera.viewUp = ⟨0, 0, 1⟩
    ∧ (UpdateCamera sampleModel true sampleRenderer).camera.viewVolume
        = ⟨0, 100, 0, 100, 0, 100⟩ := by
  obtain ⟨h1, h2, h3, -⟩ := UpdateCamera_reset sampleModel sampleRenderer rfl
  refine ⟨rfl, ?_, h2, ?_⟩
  · rw [h1]; simp [sampleModel, sampleApp, to_double]
  · rw [h3]; norm_num [cursorWorld, sampleModel, sampleApp, to_double]

/-- C8, as stated, fails: with a 100x100x100 image of unit spacing, the
identity voxel-to-world map and the cursor on voxel (0,0,0), which is inside
the image, `UpdateCamera(true)` fits the view to the box [-50,50] on every
axis, and the image voxel (99,99,99) lies outside that box. -/
theorem reset_box_misses_image :
    cornerModel.driver.mainImageLoaded = true
    ∧ cornerModel.driver.VoxelInImage cornerModel.driver.cursorPosition
    ∧ cornerModel.driver.VoxelInImage ⟨99, 99, 99⟩
    ∧ (UpdateCamera cornerModel true sampleRenderer).camera.viewVolume
        = ⟨-50, 50, -50, 50, -50, 50⟩
    ∧ ¬ (UpdateCamera cornerModel true sampleRenderer).camera.viewVolume.Contains
          (cornerModel.driver.voxelIndexToNIFTI (to_double ⟨99, 99, 99⟩)) := by
  have hv : (UpdateCamera cornerModel true sampleRenderer).camera.viewVolume
      = ⟨-50, 50, -50, 50, -50, 50⟩ := by
    rw [UpdateCamera_reset_eq cornerModel sampleRenderer rfl]
    norm_num [cursorWorld, physicalDim, element_product, cornerModel, sampleModel, sampleApp,
      to_double]
  refine ⟨rfl, ?_, ?_, hv, ?_⟩
  · simp [IRISApplication.VoxelInImage, cornerModel, sampleApp]
  · simp [IRISApplication.VoxelInImage, cornerModel, sampleApp]
  · rw [hv]
    simp only [Bounds.Contains, cornerModel, sampleApp, to_double]
    norm_num

/-- C8, amended: with an image loaded, the box `UpdateCamera(true)` fits the
view to is centred on the cursor's world position and its sides have the
image's physical dimensions s_k*sp_k; a point is inside it exactly when it is
within s_k*sp_k/2 of the cursor's world position on every axis; and an
axis-aligned box with the image's physical dimensions (corners lo and
lo + dim) is contained in it only if the cursor's world position is the centre
of that box. -/
theorem reset_box_centred (m : Generic3DModel) (r : Generic3DRenderer)
    (himg : m.driver.mainImageLoaded = true) :
    ((UpdateCamera m true r).camera.viewVolume.xmin
        + (UpdateCamera m true r).camera.viewVolume.xmax) / 2 = (cursorWorld m).x
    ∧ ((UpdateCamera m true r).camera.viewVolume.ymin
        + (UpdateCamera m true r).camera.viewVolume.ymax) / 2 = (cursorWorld m).y
    ∧ ((UpdateCamera m true r).camera.viewVolume.zmin
        + (UpdateCamera m true r).camera.viewVolume.zmax) / 2 = (cursorWorld m).z
    ∧ (UpdateCamera m true r).camera.viewVolume.xmax
        - (UpdateCamera m true r).camera.viewVolume.xmin
          = (m.driver.mainSize.x : ℚ) * m.driver.imageSpacing.x
    ∧ (UpdateCamera m true r).camera.viewVolume.ymax
        - (UpdateCamera m true r).camera.viewVolume.ymin
          = (m.driver.mainSize.y : ℚ) * m.driver.imageSpacing.y
    ∧ (UpdateCamera m true r).camera.viewVolume.zmax
        - (UpdateCamera m true r).camera.viewVolume.zmin
          = (m.driver.mainSize.z : ℚ) * m.driver.imageSpacing.z
    ∧ (∀ p : Vector3d, (UpdateCamera m true r).camera.viewVolume.Contains p ↔
        (|p.x - (cursorWorld m).x| ≤ (m.driver.mainSize.x : ℚ) * m.driver.imageSpacing.x / 2
          ∧ |p.y - (cursorWorld m).y| ≤ (m.driver.mainSize.y : ℚ) * m.driver.imageSpacing.y / 2
          ∧ |p.z - (cursorWorld m).z| ≤ (m.driver.mainSize.z : ℚ) * m.driver.imageSpacing.z / 2))
    ∧ (∀ lo : Vector3d,
        (UpdateCamera m true r).camera.viewVolume.Contains lo →
        (UpdateCamera m true r).camera.viewVolume.Contains (lo.add (physicalDim m)) →
        cursorWorld m = lo.add ((physicalDim m).scale (1 / 2))) := by
  rw [UpdateCamera_reset_eq m r himg]
  simp only [physicalDim, element_product, to_double, Bounds.Contains, Vector3d.add,
    Vector3d.scale]
  refine ⟨by ring, by ring, by ring, by ring, by ring, by ring, ?_, ?_⟩
  · intro p
    simp only [abs_le]
    constructor
    · rintro ⟨h1, h2, h3, h4, h5, h6⟩
      refine ⟨⟨?_, ?_⟩, ⟨?_, ?_⟩, ⟨?_, ?_⟩⟩ <;> linarith
    · rintro ⟨⟨h1, h2⟩, ⟨h3, h4⟩, ⟨h5, h6⟩⟩
      refine ⟨?_, ?_, ?_, ?_, ?_, ?_⟩ <;> linarith
  · rintro lo ⟨h1, h2, h3, h4, h5, h6⟩ ⟨g1, g2, g3, g4, g5, g6⟩
    have hx : (cursorWorld m).x = lo.x + (m.driver.mainSize.x : ℚ) * m.driver.imageSpacing.x * (1 / 2) := by
      linarith
    have hy : (cursorWorld m).y = lo.y + (m.driver.mainSize.y : ℚ) * m.driver.imageSpacing.y * (1 / 2) := by
      linarith
    have hz : (cursorWorld m).z = lo.z + (m.driver.mainSize.z : ℚ) * m.driver.imageSpacing.z * (1 / 2) := by
      linarith
    cases hc : cursorWorld m with
    | mk cx cy cz =>
      rw [hc] at hx hy hz
      simp only at hx hy hz
      rw [hx, hy, hz]

theorem reset_box_centred_witness :
    sampleModel.driver.mainImageLoaded = true
    ∧ ∀ p : Vector3d,
        (UpdateCamera sampleModel true sampleRenderer).camera.viewVolume.Contains p ↔
          (|p.x - (cursorWorld sampleModel).x|
              ≤ (sampleModel.driver.mainSize.x : ℚ) * sampleModel.driver.imageSpacing.x / 2
            ∧ |p.y - (cursorWorld sampleModel).y|
              ≤ (sampleModel.driver.mainSize.y : ℚ) * sampleModel.driver.imageSpacing.y / 2
            ∧ |p.z - (cursorWorld sampleModel).z|
              ≤ (sampleModel.driver.mainSize.z : ℚ) * sampleModel.driver.imageSpacing.z / 2) :=
  ⟨rfl, (reset_box_centred sampleModel sampleRenderer rfl).2.2.2.2.2.2.1⟩

/-- C9: with an image loaded, `UpdateCamera(false)` sets the focal point to
the cursor's world position and leaves the camera position, the view-up vector
and the view volume, as well as everything else in the scene, unchanged.
Hence any sequence of `OnUpdate` cycles whose pending sets hold only the cursor
event returns, leaves position, view-up vector and view volume as they were
before the sequence, and ends with the focal point on the cursor's world
position of the last cycle. -/
theorem UpdateCamera_retarget (m : Generic3DModel) (r : Generic3DRenderer)
    (himg : m.driver.mainImageLoaded = true) :
    (UpdateCamera m false r).camera.focalPoint
        = m.driver.voxelIndexToNIFTI (to_double m.driver.cursorPosition)
    ∧ (UpdateCamera m false r).camera.position = r.camera.position
    ∧ (UpdateCamera m false r).camera.viewUp = r.camera.viewUp
    ∧ (UpdateCamera m false r).camera.viewVolume = r.camera.viewVolume
    ∧ UpdateCamera m false r = { r with camera := (UpdateCamera m false r).camera }
    ∧ (∀ cycles : List (Generic3DModel × EventBucket),
        (∀ c ∈ cycles, cursorMovedOnly c.2 = true) →
        ∃ r', runCycles cycles r = some r'
          ∧ r'.camera.position = r.camera.position
          ∧ r'.camera.viewUp = r.camera.viewUp
          ∧ r'.camera.viewVolume = r.camera.viewVolume
          ∧ (∀ c, cycles.getLast? = some c → c.1.driver.mainImageLoaded = true →
              r'.camera.focalPoint = cursorWorld c.1)) := by
  obtain ⟨g1, g2, g3, g4⟩ := UpdateCamera_retarget_fields m r
  refine ⟨g4 himg, g1, g2, g3, UpdateCamera_frame m false r, ?_⟩
  intro cycles hall
  obtain ⟨r', h1, h2, h3, h4, -, h6⟩ := runCycles_cursorMovedOnly cycles r hall
  exact ⟨r', h1, h2, h3, h4, h6⟩

theorem UpdateCamera_retarget_witness :
    sampleModel.driver.mainImageLoaded = true
    ∧ ∃ r', runCycles [(cornerModel, [Event.CursorUpdateEvent]),
                       (sampleModel, [Event.CursorUpdateEvent])] sampleRenderer = some r'
        ∧ r'.camera.position = sampleRenderer.camera.position
        ∧ r'.camera.viewUp = sampleRenderer.camera.viewUp
        ∧ r'.camera.viewVolume = sampleRenderer.camera.viewVolume
        ∧ r'.camera.focalPoint = ⟨50, 50, 50⟩ := by
  obtain ⟨r', h1, h2, h3, h4, h5⟩ :=
    (UpdateCamera_retarget sampleModel sampleRenderer rfl).2.2.2.2.2
      [(cornerModel, [Event.CursorUpdateEvent]), (sampleModel, [Event.CursorUpdateEvent])]
      (by intro c hc; simp at hc; rcases hc with rfl | rfl <;> rfl)
  refine ⟨rfl, r', h1, h2, h3, h4, ?_⟩
  rw [h5 _ rfl rfl]
  simp [cursorWorld, sampleModel, sampleApp, to_double]

/-- C11, as stated, fails: binding the sample model, whose mesh has two
surfaces, to a freshly constructed renderer leaves the mesh assembly empty,
whereas a structural rebuild gives two actors. -/
theorem SetModel_no_mesh_rebuild :
    sampleModel.mesh.GetNumberOfVTKMeshes = 2
    ∧ (SetModel sampleModel sampleRenderer).meshAssembly = []
    ∧ (UpdateRendering sampleModel sampleRenderer).meshAssembly.length = 2
    ∧ (SetModel sampleModel sampleRenderer).meshAssembly.length
        ≠ sampleModel.mesh.GetNumberOfVTKMeshes := by
  have h1 : (SetModel sampleModel sampleRenderer).meshAssembly = [] := by
    rw [(SetModel_meshAssembly sampleModel sampleRenderer).1]; rfl
  refine ⟨rfl, h1, ?_, ?_⟩
  · rw [UpdateRendering_eq]; rfl
  · rw [h1]; decide

/-- C11, amended: `SetModel` leaves the mesh assembly exactly as it finds it
(no structural rebuild, no `Modified()`); its axis lines and camera are those
of `UpdateAxisRendering` and `UpdateCamera(true)`, so with an image loaded the
three axis lines are rebuilt and the camera is reset, and they agree with what
an `OnUpdate` pass on a pending geometry change produces (which, unlike
`SetModel`, also rebuilds the mesh actors).  `SetModel` also registers the
four rebroadcasts and hands the model to the picker. -/
theorem SetModel_axes_camera_only (m : Generic3DModel) (r : Generic3DRenderer) :
    (SetModel m r).meshAssembly = r.meshAssembly
    ∧ (SetModel m r).meshAssemblyModified = r.meshAssemblyModified
    ∧ (SetModel m r).axis = (UpdateAxisRendering m r).axis
    ∧ (SetModel m r).camera = (UpdateCamera m true r).camera
    ∧ (m.driver.mainImageLoaded = true →
        (∀ j, (SetModel m r).axis j = rebuiltAxis m j (r.axis j))
        ∧ (SetModel m r).camera.focalPoint = cursorWorld m
        ∧ (SetModel m r).camera.viewUp = ⟨0, 0, 1⟩
        ∧ (SetModel m r).camera.viewVolume =
            ⟨(cursorWorld m).x - (physicalDim m).x * (1 / 2),
             (cursorWorld m).x + (physicalDim m).x * (1 / 2),
             (cursorWorld m).y - (physicalDim m).y * (1 / 2),
             (cursorWorld m).y + (physicalDim m).y * (1 / 2),
             (cursorWorld m).z - (physicalDim m).z * (1 / 2),
             (cursorWorld m).z + (physicalDim m).z * (1 / 2)⟩)
    ∧ (∃ r', OnUpdate m [Event.MainImageDimensionsChangeEvent] r = some r'
        ∧ r'.axis = (SetModel m r).axis
        ∧ r'.camera = (SetModel m r).camera
        ∧ r'.meshAssembly = (UpdateRendering m r).meshAssembly)
    ∧ (SetModel m r).pickerHasModel = true
    ∧ (SetModel m r).rebroadcasts = r.rebroadcasts ++
        [(EventSource.mesh, Event.ModifiedEvent),
         (EventSource.driver, Event.MainImageDimensionsChangeEvent),
         (EventSource.parentUI, Event.CursorUpdateEvent),
         (EventSource.colorLabelTable, Event.SegmentationLabelChangeEvent)] := by
  have hax : (SetModel m r).axis = (UpdateAxisRendering m r).axis := by rw [SetModel_eq]
  have hcam : (SetModel m r).camera = (UpdateCamera m true r).camera := by rw [SetModel_eq]
  refine ⟨(SetModel_meshAssembly m r).1, (SetModel_meshAssembly m r).2, hax, hcam, ?_, ?_,
    by rw [SetModel_eq], by rw [SetModel_eq]⟩
  · intro himg
    rw [hax, hcam, UpdateCamera_reset_eq m r himg, UpdateAxisRendering_eq]
    simp [himg]
  · have hm : meshDispatch m [Event.MainImageDimensionsChangeEvent] r
        = some (UpdateRendering m r) := rfl
    obtain ⟨h1, h2, -⟩ := meshDispatch_frame m _ r _ hm
    obtain ⟨h3, h4⟩ := axisCamera_after_mesh m true r _ h1 h2
    refine ⟨UpdateCamera m true (UpdateAxisRendering m (UpdateRendering m r)), rfl, ?_, ?_, ?_⟩
    · rw [h3, hax]
    · rw [h4, hcam]
    · rw [UpdateCamera_frame, UpdateAxisRendering_frame]

theorem SetModel_axes_camera_only_witness :
    sampleModel.driver.mainImageLoaded = true
    ∧ (SetModel sampleModel sampleScene).meshAssembly = sampleScene.meshAssembly
    ∧ (SetModel sampleModel sampleScene).camera.focalPoint = cursorWorld sampleModel
    ∧ (SetModel sampleModel sampleScene).camera.viewUp = ⟨0, 0, 1⟩ :=
  ⟨rfl, (SetModel_axes_camera_only sampleModel sampleScene).1,
    ((SetModel_axes_camera_only sampleModel sampleScene).2.2.2.2.1 rfl).2.1,
    ((SetModel_axes_camera_only sampleModel sampleScene).2.2.2.2.1 rfl).2.2.1⟩

/-- C12, as stated, fails: a freshly constructed renderer bound by `SetModel`
to the sample model (two surfaces) has an empty assembly; the mesh does not
change afterwards, so nothing has to be reported, and a pass whose pending set
holds only the label event invokes `UpdateMeshAppearance` on no actors for two
surfaces: the first actor lookup finds none and `OnUpdate` does not return. -/
theorem SetModel_then_label_pass_fails :
    MeshChangesReported sampleModel.mesh
        [(sampleModel, [Event.SegmentationLabelChangeEvent])]
    ∧ selectsAppearance [Event.SegmentationLabelChangeEvent] = true
    ∧ (SetModel sampleModel sampleRenderer).meshAssembly.length = 0
    ∧ sampleModel.mesh.GetNumberOfVTKMeshes = 2
    ∧ UpdateMeshAppearance sampleModel (SetModel sampleModel sampleRenderer) = none
    ∧ runCycles [(sampleModel, [Event.SegmentationLabelChangeEvent])]
        (SetModel sampleModel sampleRenderer) = none := by
  have h0 : (SetModel sampleModel sampleRenderer).meshAssembly.length = 0 := by
    rw [(SetModel_meshAssembly sampleModel sampleRenderer).1]; rfl
  have hnone : OnUpdate sampleModel [Event.SegmentationLabelChangeEvent]
      (SetModel sampleModel sampleRenderer) = none := by
    rw [OnUpdate_eq_none]
    refine ⟨rfl, rfl, rfl, ?_⟩
    rw [h0]; decide
  refine ⟨⟨fun h => absurd rfl h, trivial⟩, rfl, h0, rfl, ?_, ?_⟩
  · rw [UpdateMeshAppearance_eq, if_neg]
    rw [h0]; decide
  · simp only [runCycles, hnone, Option.none_bind]

/-- C12, amended: if the assembly wraps the surfaces of the model's mesh one
by one when `SetModel` is called (`SetModel` itself leaves the assembly as it
finds it), then for any sequence of `OnUpdate` passes in which every change of
the surface list is reported by the mesh `ModifiedEvent`, all passes return,
and whenever a pass invokes `UpdateMeshAppearance` the assembly has exactly as
many actors as the mesh has surfaces, the i-th actor wrapping surface i, so
every actor lookup finds an actor and the update returns. -/
theorem appearance_precondition_kept (m0 : Generic3DModel) (r0 : Generic3DRenderer)
    (cycles : List (Generic3DModel × EventBucket))
    (h0 : MeshAligned m0.mesh r0) (hrep : MeshChangesReported m0.mesh cycles) :
    (∃ r', runCycles cycles (SetModel m0 r0) = some r')
    ∧ ∀ pre c post, cycles = pre ++ c :: post → selectsAppearance c.2 = true →
        ∃ r1, runCycles pre (SetModel m0 r0) = some r1
          ∧ r1.meshAssembly.length = c.1.mesh.GetNumberOfVTKMeshes
          ∧ r1.meshAssembly.map (fun a => a.mapperInput) = c.1.mesh.meshes.map Prod.fst
          ∧ (∀ i, i < c.1.mesh.GetNumberOfVTKMeshes → ∃ a, r1.meshAssembly[i]? = some a)
          ∧ ∃ r2, UpdateMeshAppearance c.1 r1 = some r2 := by
  have hs : MeshAligned m0.mesh (SetModel m0 r0) := by
    unfold MeshAligned
    rw [(SetModel_meshAssembly m0 r0).1]
    exact h0
  constructor
  · obtain ⟨r1, -, h1, -, -⟩ :=
      runCycles_aligned cycles [] m0.mesh (SetModel m0 r0) hs (by simpa using hrep)
    exact ⟨r1, h1⟩
  · intro pre c post hsplit hsel
    subst hsplit
    obtain ⟨r1, prev1, h1, h2, h3⟩ :=
      runCycles_aligned pre (c :: post) m0.mesh (SetModel m0 r0) hs hrep
    simp only [MeshChangesReported] at h3
    have hal : MeshAligned c.1.mesh r1 := (OnUpdate_aligned prev1 c.1 c.2 r1 h2 h3.1).1 hsel
    have hlen := MeshAligned_length c.1.mesh r1 hal
    obtain ⟨r2, hr2, -⟩ := UpdateMeshAppearance_inputs c.1 r1 (le_of_eq hlen.symm)
    refine ⟨r1, h1, hlen, hal, ?_, r2, hr2⟩
    intro i hi
    have hi2 : i < r1.meshAssembly.length := hlen ▸ hi
    exact ⟨r1.meshAssembly[i], List.getElem?_eq_getElem hi2⟩

theorem appearance_precondition_kept_witness :
    MeshAligned emptyMeshModel.mesh sampleRenderer
    ∧ MeshChangesReported emptyMeshModel.mesh
        [(sampleModel, [Event.ModifiedEvent]), (sampleModel, [Event.SegmentationLabelChangeEvent])]
    ∧ ∃ r1, runCycles [(sampleModel, [Event.ModifiedEvent])]
          (SetModel emptyMeshModel sampleRenderer) = some r1
        ∧ r1.meshAssembly.length = sampleModel.mesh.GetNumberOfVTKMeshes
        ∧ r1.meshAssembly.map (fun a => a.mapperInput) = sampleModel.mesh.meshes.map Prod.fst
        ∧ (∀ i, i < sampleModel.mesh.GetNumberOfVTKMeshes → ∃ a, r1.meshAssembly[i]? = some a)
        ∧ ∃ r2, UpdateMeshAppearance sampleModel r1 = some r2 := by
  have ha : MeshAligned emptyMeshModel.mesh sampleRenderer := rfl
  have hr : MeshChangesReported emptyMeshModel.mesh
      [(sampleModel, [Event.ModifiedEvent]),
       (sampleModel, [Event.SegmentationLabelChangeEvent])] :=
    ⟨fun _ => rfl, fun h => absurd rfl h, trivial⟩
  exact ⟨ha, hr,
    (appearance_precondition_kept emptyMeshModel sampleRenderer _ ha hr).2
      [(sampleModel, [Event.ModifiedEvent])]
      (sampleModel, [Event.SegmentationLabelChangeEvent]) [] rfl rfl⟩

/-- C13, as stated, fails: with the cursor on voxel (50,50,50) of a
100x100x100 image, the line of axis 0 runs from (0,50,50) to (100,50,50); its
endpoints are not zero in the other two coordinates. -/
theorem axis_line_through_cursor :
    sampleModel.driver.mainImageLoaded = true
    ∧ ((UpdateAxisRendering sampleModel sampleRenderer).axis 0).point1 = ⟨0, 50, 50⟩
    ∧ ((UpdateAxisRendering sampleModel sampleRenderer).axis 0).point2 = ⟨100, 50, 50⟩
    ∧ ((UpdateAxisRendering sampleModel sampleRenderer).axis 0).point1.get 1 ≠ 0 := by
  have h1 : ((UpdateAxisRendering sampleModel sampleRenderer).axis 0).point1 = ⟨0, 50, 50⟩ := by
    rw [UpdateAxisRendering_eq]
    simp [sampleModel, sampleApp, rebuiltAxis, updateAxisLine, to_double, Vector3d.set]
  refine ⟨rfl, h1, ?_, ?_⟩
  · rw [UpdateAxisRendering_eq]
    simp [sampleModel, sampleApp, rebuiltAxis, updateAxisLine, to_double, Vector3d.set,
      Vector3ui.get]
  · rw [h1]
    simp [Vector3d.get]

/-- C13, amended: with an image loaded, after `UpdateAxisRendering` the line of
each axis i has coordinate i equal to 0 at its first endpoint and to dims[i] at
its second, and in the other two coordinates both endpoints carry the cursor's
coordinates (the line runs through the cursor). -/
theorem axis_line_endpoints (m : Generic3DModel) (r : Generic3DRenderer)
    (himg : m.driver.mainImageLoaded = true) (i : Fin 3) :
    ((UpdateAxisRendering m r).axis i).point1.get i = 0
    ∧ ((UpdateAxisRendering m r).axis i).point2.get i = (m.driver.imageRegionSize.get i : ℚ)
    ∧ ∀ j, j ≠ i →
        ((UpdateAxisRendering m r).axis i).point1.get j = (m.driver.cursorPosition.get j : ℚ)
        ∧ ((UpdateAxisRendering m r).axis i).point2.get j
            = (m.driver.cursorPosition.get j : ℚ) := by
  rw [UpdateAxisRendering_eq]
  simp only [himg, if_true, rebuiltAxis]
  obtain ⟨h1, h2⟩ := updateAxisLine_points m.driver.cursorPosition m.driver.imageRegionSize
    m.crosshairs3D m.worldMatrix i (r.axis i)
  rw [h1, h2]
  refine ⟨?_, ?_, ?_⟩
  · fin_cases i <;> rfl
  · fin_cases i <;> rfl
  · intro j hj
    fin_cases i <;> fin_cases j <;>
      first
      | exact absurd rfl hj
      | exact ⟨rfl, rfl⟩

theorem axis_line_endpoints_witness :
    sampleModel.driver.mainImageLoaded = true
    ∧ ((UpdateAxisRendering sampleModel sampleRenderer).axis 2).point1.get 2 = 0
    ∧ ((UpdateAxisRendering sampleModel sampleRenderer).axis 2).point2.get 2
        = (sampleModel.driver.imageRegionSize.get 2 : ℚ) :=
  ⟨rfl, (axis_line_endpoints sampleModel sampleRenderer rfl 2).1,
    (axis_line_endpoints sampleModel sampleRenderer rfl 2).2.1⟩

end ITKSnap
